import Mathlib

/-!
Verification of the Swap-Pricer repository (src/App.tsx, src/types.ts,
src/services/aiService.ts).

Embedding conventions:

* JavaScript numbers are modelled as exact real numbers (`ℝ`); the source's
  arithmetic is plain `+ * / Math.abs Math.pow`, and the spec speaks in real
  arithmetic, so the idealisation is shared by code and spec.
  `Number.toFixed f` is modelled as rounding `x * 10 ^ f` to the nearest
  integer (ties toward +∞, as ECMA-262 prescribes for `toFixed`) and dividing
  back.
* Calendar dates are modelled as the triple (year, 0-based month, day) that a
  JavaScript `Date` constructed from an ISO `YYYY-MM-DD` string holds in UTC;
  the app's `addMonths` uses `setMonth`, whose ECMAScript semantics keep the
  day-of-month and roll an out-of-range day over into the following month
  (e.g. Jan 31 + 1 month = Mar 2 or Mar 3).  Comparison `d1 <= d2` on such
  dates is comparison of their timestamps, i.e. lexicographic comparison of
  (year, month, day), which on the modelled domain (0 ≤ month < 12,
  1 ≤ day ≤ 31) coincides with comparison of the injective key
  `(year*12 + month)*32 + day` used below.  We assume the runtime's local
  time zone is UTC, so that parsing, `setMonth` and `toISOString` all act on
  the same calendar day.
* `Math.random()` draws are supplied explicitly: the generator receives an
  oracle `rng : ℕ → ℝ × ℝ` giving, for each period, the draw used for leg 1
  and the draw used for leg 2; `Math.random`'s contract is `0 ≤ r < 1`.
* `analyzeSwapDeal`'s environment (the API key) and the outcome of the single
  remote `generateContent` call (either a response text, possibly empty, or a
  thrown error) are passed as explicit parameters.
-/

/-- A calendar date as held by a JavaScript `Date` (UTC): `year`, 0-based
`month`, 1-based `day`. -/
structure JSDate where
  year : Int
  month : Int
  day : Int
deriving DecidableEq

/-- Injective order key for a date: on the modelled domain
(`0 ≤ month < 12`, `1 ≤ day ≤ 31`) it is order-isomorphic to the JS
timestamp, so `d1 <= d2` in the source is `key d1 ≤ key d2` here. -/
def key (d : JSDate) : Int :=
  (d.year * 12 + d.month) * 32 + d.day

/-- Gregorian leap-year rule, as implemented by JavaScript `Date`. -/
def isLeapYear (y : Int) : Prop :=
  (y % 4 = 0 ∧ y % 100 ≠ 0) ∨ y % 400 = 0

instance (y : Int) : Decidable (isLeapYear y) := by
  unfold isLeapYear; infer_instance

/-- Number of days in 0-based month `m` of year `y`. -/
def daysInMonth (y m : Int) : Int :=
  if m = 1 then (if isLeapYear y then 29 else 28)
  else if m = 3 ∨ m = 5 ∨ m = 8 ∨ m = 10 then 30
  else 31

/-- `addMonths` from src/App.tsx lines 23-27: `setMonth(getMonth() + months)`.
ECMAScript `setMonth` renormalises the month into 0-11 (adjusting the year)
and keeps the day-of-month; a day beyond the target month's length rolls over
into the following month.  (On the modelled domain `1 ≤ day ≤ 31` at most one
roll-over can occur, since every month has at least 28 days.) -/
def addMonths (date : JSDate) (months : Int) : JSDate :=
  let total := date.year * 12 + date.month + months
  if date.day ≤ daysInMonth (total / 12) (total % 12) then
    ⟨total / 12, total % 12, date.day⟩
  else
    ⟨(total + 1) / 12, (total + 1) % 12, date.day - daysInMonth (total / 12) (total % 12)⟩

/-- Two-digit zero padding used by ISO date formatting. -/
def padTwo (n : Int) : String :=
  if n < 10 then "0" ++ toString n else toString n

/-- `formatDate` from src/App.tsx lines 19-21: `toISOString().split('T')[0]`,
i.e. `YYYY-MM-DD` (months printed 1-based). -/
def formatDate (date : JSDate) : String :=
  toString date.year ++ "-" ++ padTwo (date.month + 1) ++ "-" ++ padTwo date.day

/-- `getFrequencyMonths` from src/App.tsx lines 29-37. -/
def getFrequencyMonths (freq : String) : Int :=
  if freq = "Monthly" then 1
  else if freq = "Quarterly" then 3
  else if freq = "Semi-Annual" then 6
  else if freq = "Annual" then 12
  else 3

/-- Leg type union `'Fixed' | 'Floating'` from src/types.ts. -/
inductive LegType where
  | Fixed : LegType
  | Floating : LegType
deriving DecidableEq

/-- Deal status union `'Active' | 'Pending' | 'Matured'` from src/types.ts. -/
inductive DealStatus where
  | Active : DealStatus
  | Pending : DealStatus
  | Matured : DealStatus
deriving DecidableEq

/-- `SwapLeg` from src/types.ts. -/
structure SwapLeg where
  currency : String
  notional : ℝ
  rate : ℝ
  type : LegType
  frequency : String
  convention : String

/-- `SwapDeal` from src/types.ts.  `startDate` and `endDate` are stored as ISO
strings in the source and parsed with `new Date(...)` by the generator; here
they are carried already parsed.  `valueDate` is never parsed by the code
under verification, so it stays a string. -/
structure SwapDeal where
  id : Option String
  status : Option DealStatus
  valueDate : String
  startDate : JSDate
  endDate : JSDate
  leg1 : SwapLeg
  leg2 : SwapLeg

/-- `CashflowRow` from src/types.ts. -/
structure CashflowRow where
  date : String
  leg1Flow : ℝ
  leg2Flow : ℝ
  discountFactor : ℝ
  presentValue : ℝ

/-- `Number(x.toFixed(f))`: round `x` to `f` decimal places, ties toward +∞
(ECMA-262 `toFixed` picks the larger candidate on a tie).  Mathlib's `round`
is exactly `⌊x + 1/2⌋`. -/
noncomputable def toFixed (f : ℕ) (x : ℝ) : ℝ :=
  ((round (x * 10 ^ f) : ℤ) : ℝ) / 10 ^ f

/-- Effective per-period rate of a leg, src/App.tsx lines 67-68:
`leg.type === 'Floating' ? leg.rate + (Math.random() * 0.5 - 0.25) : leg.rate`
with the `Math.random()` draw `r` passed explicitly. -/
noncomputable def effectiveRate (leg : SwapLeg) (r : ℝ) : ℝ :=
  if leg.type = LegType.Floating then leg.rate + (r * 0.5 - 0.25) else leg.rate

/-- Loop body of `generateSmartCashflows` (src/App.tsx lines 54-94): the row
pushed for period `x.1` at cursor date `x.2`. -/
noncomputable def mkRow (deal : SwapDeal) (rng : ℕ → ℝ × ℝ) (x : ℕ × JSDate) : CashflowRow :=
  let timeFraction : ℝ := (getFrequencyMonths deal.leg1.frequency : ℝ) / 12
  let leg1Rate := effectiveRate deal.leg1 (rng x.1).1
  let leg2Rate := effectiveRate deal.leg2 (rng x.1).2
  let leg1Interest := deal.leg1.notional * (leg1Rate / 100) * timeFraction
  let leg2Interest := deal.leg2.notional * (leg2Rate / 100) * timeFraction
  let discountFactor := 1 / (1.04 : ℝ) ^ ((x.1 : ℝ) * timeFraction)
  { date := formatDate x.2
    leg1Flow := toFixed 2 leg1Interest
    leg2Flow := toFixed 2 (-leg2Interest)
    discountFactor := toFixed 4 discountFactor
    presentValue := toFixed 2 (|leg1Interest| - |leg2Interest| * discountFactor) }

/-- The payment schedule underlying the `while (currentDate <= end)` loop of
`generateSmartCashflows` (src/App.tsx lines 52-98): the cursor dates paired
with the 1-based period counter, stripped of the numeric row computation.
`generateGo` below produces exactly the image of this list under `mkRow`. -/
def scheduleGo (endD : JSDate) (freq : String) (currentDate : JSDate) (period : ℕ) :
    List (ℕ × JSDate) :=
  if h : key currentDate ≤ key endD then
    (period, currentDate) ::
      scheduleGo endD freq (addMonths currentDate (getFrequencyMonths freq)) (period + 1)
  else []
termination_by (key endD + 1 - key currentDate).toNat
decreasing_by
  have h1 : 1 ≤ getFrequencyMonths freq := by
    unfold getFrequencyMonths
    split
    · norm_num
    · split
      · norm_num
      · split
        · norm_num
        · split <;> norm_num
  have h2 : key currentDate < key (addMonths currentDate (getFrequencyMonths freq)) := by
    unfold key addMonths
    have hdim : 28 ≤ daysInMonth
          ((currentDate.year * 12 + currentDate.month + getFrequencyMonths freq) / 12)
          ((currentDate.year * 12 + currentDate.month + getFrequencyMonths freq) % 12) ∧
        daysInMonth
          ((currentDate.year * 12 + currentDate.month + getFrequencyMonths freq) / 12)
          ((currentDate.year * 12 + currentDate.month + getFrequencyMonths freq) % 12) ≤ 31 := by
      unfold daysInMonth
      split
      · split <;> norm_num
      · split <;> norm_num
    have htot := Int.ediv_add_emod
      (currentDate.year * 12 + currentDate.month + getFrequencyMonths freq) 12
    have htot1 := Int.ediv_add_emod
      (currentDate.year * 12 + currentDate.month + getFrequencyMonths freq + 1) 12
    dsimp only
    split
    · dsimp only; omega
    · dsimp only; omega
  omega

/-- The schedule of a deal: cursor starts at `startDate` advanced by one leg-1
frequency step, period counter starts at 1 (src/App.tsx lines 50-52). -/
def schedule (deal : SwapDeal) : List (ℕ × JSDate) :=
  scheduleGo deal.endDate deal.leg1.frequency
    (addMonths deal.startDate (getFrequencyMonths deal.leg1.frequency)) 1

/-- The `while (currentDate <= end)` loop of `generateSmartCashflows`
(src/App.tsx lines 54-98), as a recursion on the cursor date. -/
noncomputable def generateGo (deal : SwapDeal) (rng : ℕ → ℝ × ℝ) (currentDate : JSDate)
    (period : ℕ) : List CashflowRow :=
  if h : key currentDate ≤ key deal.endDate then
    mkRow deal rng (period, currentDate) ::
      generateGo deal rng (addMonths currentDate (getFrequencyMonths deal.leg1.frequency))
        (period + 1)
  else []
termination_by (key deal.endDate + 1 - key currentDate).toNat
decreasing_by
  have h1 : 1 ≤ getFrequencyMonths deal.leg1.frequency := by
    unfold getFrequencyMonths
    split
    · norm_num
    · split
      · norm_num
      · split
        · norm_num
        · split <;> norm_num
  have h2 : key currentDate <
      key (addMonths currentDate (getFrequencyMonths deal.leg1.frequency)) := by
    unfold key addMonths
    have hdim : 28 ≤ daysInMonth
          ((currentDate.year * 12 + currentDate.month +
            getFrequencyMonths deal.leg1.frequency) / 12)
          ((currentDate.year * 12 + currentDate.month +
            getFrequencyMonths deal.leg1.frequency) % 12) ∧
        daysInMonth
          ((currentDate.year * 12 + currentDate.month +
            getFrequencyMonths deal.leg1.frequency) / 12)
          ((currentDate.year * 12 + currentDate.month +
            getFrequencyMonths deal.leg1.frequency) % 12) ≤ 31 := by
      unfold daysInMonth
      split
      · split <;> norm_num
      · split <;> norm_num
    have htot := Int.ediv_add_emod
      (currentDate.year * 12 + currentDate.month + getFrequencyMonths deal.leg1.frequency) 12
    have htot1 := Int.ediv_add_emod
      (currentDate.year * 12 + currentDate.month + getFrequencyMonths deal.leg1.frequency + 1) 12
    dsimp only
    split
    · dsimp only; omega
    · dsimp only; omega
  omega

/-- `generateSmartCashflows` from src/App.tsx lines 40-100. -/
noncomputable def generateSmartCashflows (deal : SwapDeal) (rng : ℕ → ℝ × ℝ) :
    List CashflowRow :=
  generateGo deal rng (addMonths deal.startDate (getFrequencyMonths deal.leg1.frequency)) 1

/-- Modelled from the spec: `monthsBetween(startDate, endDate)` — the number
of whole calendar months from `a` to `b`, i.e. the largest `n` with `a`
advanced by `n` day-preserving months still on or before `b`.  Because a
day-preserving month advance moves `key` by exactly 32, this is the floor of
the key distance over 32. -/
def monthsBetween (a b : JSDate) : Int :=
  (key b - key a) / 32

/-- `PricingResult` from src/types.ts.  `npvTotalFormatted` (a
locale-dependent display string) is presentation-only and not modelled. -/
structure PricingResult where
  npvTotal : ℝ
  spread : ℝ
  principal : ℝ
  leg1Npv : ℝ
  leg2Npv : ℝ
  cashflows : List CashflowRow

/-- The pricing computation of `handleCalculate` from src/App.tsx lines
676-699: generate the rows, then fold the summary figures exactly as the
source's `reduce` calls do.  (The id generation, React state updates and
navigation in lines 678, 701-709 are view-layer side effects outside the
pricing logic.) -/
noncomputable def handleCalculate (inputDeal : SwapDeal) (rng : ℕ → ℝ × ℝ) : PricingResult :=
  let cashflows := generateSmartCashflows inputDeal rng
  let sumPv := cashflows.foldl (fun acc row => acc + row.presentValue) 0
  let leg1Sum := cashflows.foldl (fun acc row => acc + row.leg1Flow) 0
  let leg2Sum := cashflows.foldl (fun acc row => acc + row.leg2Flow) 0
  let principal := inputDeal.leg2.notional
  { npvTotal := sumPv
    spread := |inputDeal.leg1.rate - inputDeal.leg2.rate| * 100
    principal := principal
    leg1Npv := leg1Sum
    leg2Npv := leg2Sum
    cashflows := cashflows }

/-- The JavaScript falsiness test `!process.env.API_KEY`: the key is absent
or the empty string. -/
def apiKeyMissing (apiKey : Option String) : Prop :=
  apiKey = none ∨ apiKey = some ""

instance (apiKey : Option String) : Decidable (apiKeyMissing apiKey) := by
  unfold apiKeyMissing; infer_instance

/-- `analyzeSwapDeal` from src/services/aiService.ts lines 6-42.  The deal and
pricing result are interpolated into the prompt sent to the remote model and
do not influence control flow.  `callOutcome` is the outcome of the single
`ai.models.generateContent` call: `Except.ok t` a response whose text is `t`
(`""` standing for an empty or absent `response.text`, both falsy), and
`Except.error ()` a thrown error, caught by the source's `try/catch`.  Every
path returns a string — the promise never rejects. -/
def analyzeSwapDeal (apiKey : Option String) (deal : SwapDeal) (result : PricingResult)
    (callOutcome : Except Unit String) : String :=
  if apiKeyMissing apiKey then "API Key missing. Unable to perform AI analysis."
  else
    match callOutcome with
    | Except.ok t => if t = "" then "No analysis generated." else t
    | Except.error _ => "Failed to generate analysis. Please check your connection or API limits."

/-- A fixed random oracle (all draws 0), used to instantiate theorems. -/
noncomputable def rngZero : ℕ → ℝ × ℝ := fun _ => (0, 0)

/-- A second fixed random oracle (all draws 1/2). -/
noncomputable def rngHalf : ℕ → ℝ × ℝ := fun _ => (1 / 2, 1 / 2)

/-- The spec's §8 scenario deal: 2024-10-01 to 2025-04-01, leg 1 Quarterly,
both legs Fixed at 4% on a notional of 1,000,000. -/
noncomputable def scenarioDeal : SwapDeal :=
  { id := none
    status := none
    valueDate := "2024-09-27"
    startDate := ⟨2024, 9, 1⟩
    endDate := ⟨2025, 3, 1⟩
    leg1 := { currency := "USD", notional := 1000000, rate := 4, type := LegType.Fixed
              frequency := "Quarterly", convention := "30/360" }
    leg2 := { currency := "USD", notional := 1000000, rate := 4, type := LegType.Fixed
              frequency := "Quarterly", convention := "30/360" } }

/-- A tiny Fixed/Fixed quarterly deal (notional 1, rate 1%) whose per-period
interest 1 × 0.01 × 0.25 = 0.0025 is not representable in 2 decimals. -/
noncomputable def tinyDeal : SwapDeal :=
  { id := none
    status := none
    valueDate := "2024-09-27"
    startDate := ⟨2024, 9, 1⟩
    endDate := ⟨2025, 0, 1⟩
    leg1 := { currency := "USD", notional := 1, rate := 1, type := LegType.Fixed
              frequency := "Quarterly", convention := "30/360" }
    leg2 := { currency := "USD", notional := 1, rate := 1, type := LegType.Fixed
              frequency := "Quarterly", convention := "30/360" } }

/-- A quarterly deal starting on a month's 31st day: 2024-01-31 to
2024-07-31.  `setMonth` overflow (Apr 31 → May 1) desynchronises the cursor
from whole-month arithmetic. -/
noncomputable def overflowDeal : SwapDeal :=
  { id := none
    status := none
    valueDate := "2024-01-31"
    startDate := ⟨2024, 0, 31⟩
    endDate := ⟨2024, 6, 31⟩
    leg1 := { currency := "USD", notional := 1000000, rate := 4, type := LegType.Fixed
              frequency := "Quarterly", convention := "30/360" }
    leg2 := { currency := "USD", notional := 1000000, rate := 4, type := LegType.Fixed
              frequency := "Quarterly", convention := "30/360" } }

/-- A deal whose end date precedes its start date. -/
noncomputable def backwardsDeal : SwapDeal :=
  { id := none
    status := none
    valueDate := "2025-01-01"
    startDate := ⟨2025, 0, 1⟩
    endDate := ⟨2024, 0, 1⟩
    leg1 := { currency := "USD", notional := 1000000, rate := 4, type := LegType.Fixed
              frequency := "Quarterly", convention := "30/360" }
    leg2 := { currency := "USD", notional := 1000000, rate := 4, type := LegType.Fixed
              frequency := "Quarterly", convention := "30/360" } }

/-- The scenario deal with different bookkeeping fields (`id`, `status`,
`valueDate`) but identical dates and legs. -/
noncomputable def scenarioDealRelabelled : SwapDeal :=
  { scenarioDeal with id := some "SWP-099", status := some DealStatus.Pending
                      valueDate := "1999-12-31" }

/-- A floating leg at 1.25%, as in the pricer form's default leg 1. -/
noncomputable def floatingLeg : SwapLeg :=
  { currency := "BRL", notional := 10000000, rate := 1.25, type := LegType.Floating
    frequency := "Quarterly", convention := "Actual/365" }

/-- `getFrequencyMonths` always returns a positive month step. -/
theorem getFrequencyMonths_pos (freq : String) : 1 ≤ getFrequencyMonths freq := by
  unfold getFrequencyMonths
  split
  · norm_num
  · split
    · norm_num
    · split
      · norm_num
      · split <;> norm_num

/-- Month lengths are between 28 and 31 days. -/
theorem daysInMonth_bounds (y m : Int) :
    28 ≤ daysInMonth y m ∧ daysInMonth y m ≤ 31 := by
  unfold daysInMonth
  split
  · split <;> norm_num
  · split <;> norm_num

/-- Adding `k ≥ 1` months moves the order key forward by at least `32 * k`
(and by less than `32 * (k + 1)`); in particular the date strictly grows. -/
theorem key_addMonths_bounds (d : JSDate) (k : Int) :
    key d + 32 * k ≤ key (addMonths d k) ∧
    key (addMonths d k) ≤ key d + 32 * k + 4 := by
  unfold addMonths key
  have htot : (d.year * 12 + d.month + k) / 12 * 12 + (d.year * 12 + d.month + k) % 12 =
      d.year * 12 + d.month + k := by
    have := Int.ediv_add_emod (d.year * 12 + d.month + k) 12
    omega
  have htot1 : (d.year * 12 + d.month + k + 1) / 12 * 12 + (d.year * 12 + d.month + k + 1) % 12 =
      d.year * 12 + d.month + k + 1 := by
    have := Int.ediv_add_emod (d.year * 12 + d.month + k + 1) 12
    omega
  have hdim := daysInMonth_bounds ((d.year * 12 + d.month + k) / 12)
    ((d.year * 12 + d.month + k) % 12)
  dsimp only
  split
  · dsimp only
    omega
  · dsimp only
    omega

/-- The key strictly increases under a positive month step. -/
theorem key_lt_addMonths (d : JSDate) (k : Int) (hk : 1 ≤ k) :
    key d < key (addMonths d k) := by
  have h := (key_addMonths_bounds d k).1
  omega

/-- One-step unfolding of `scheduleGo`. -/
theorem scheduleGo_step (endD : JSDate) (freq : String) (cur : JSDate) (p : ℕ) :
    scheduleGo endD freq cur p =
      if key cur ≤ key endD then
        (p, cur) :: scheduleGo endD freq (addMonths cur (getFrequencyMonths freq)) (p + 1)
      else [] := by
  rw [scheduleGo]
  split <;> simp

/-- One-step unfolding of `generateGo`. -/
theorem generateGo_step (deal : SwapDeal) (rng : ℕ → ℝ × ℝ) (cur : JSDate) (p : ℕ) :
    generateGo deal rng cur p =
      if key cur ≤ key deal.endDate then
        mkRow deal rng (p, cur) ::
          generateGo deal rng (addMonths cur (getFrequencyMonths deal.leg1.frequency)) (p + 1)
      else [] := by
  rw [generateGo]
  split <;> simp

/-- The row loop is the row computation mapped over the schedule. -/
theorem generateGo_eq_map (deal : SwapDeal) (rng : ℕ → ℝ × ℝ) (cur : JSDate) (p : ℕ) :
    generateGo deal rng cur p =
      (scheduleGo deal.endDate deal.leg1.frequency cur p).map (mkRow deal rng) := by
  induction cur, p using scheduleGo.induct deal.endDate deal.leg1.frequency with
  | case1 cur p h ih =>
      rw [generateGo_step, scheduleGo_step, if_pos h, if_pos h, List.map_cons, ih]
  | case2 cur p h =>
      rw [generateGo_step, scheduleGo_step, if_neg h, if_neg h, List.map_nil]

/-- `generateSmartCashflows` is the row computation mapped over the schedule. -/
theorem generate_eq_schedule_map (deal : SwapDeal) (rng : ℕ → ℝ × ℝ) :
    generateSmartCashflows deal rng = (schedule deal).map (mkRow deal rng) := by
  unfold generateSmartCashflows schedule
  exact generateGo_eq_map deal rng _ 1

/-- Head of the schedule: the first candidate date, provided it is due. -/
theorem scheduleGo_headq (endD : JSDate) (freq : String) (cur : JSDate) (p : ℕ) :
    (scheduleGo endD freq cur p).head? =
      if key cur ≤ key endD then some (p, cur) else none := by
  rw [scheduleGo_step]
  split <;> simp

/-- Every scheduled entry's date is on or before the end date. -/
theorem scheduleGo_mem_le (endD : JSDate) (freq : String) :
    ∀ cur p, ∀ x ∈ scheduleGo endD freq cur p, key x.2 ≤ key endD := by
  intro cur p
  induction cur, p using scheduleGo.induct endD freq with
  | case1 cur p h ih =>
      intro x hx
      rw [scheduleGo_step, if_pos h, List.mem_cons] at hx
      rcases hx with hx | hx
      · simp [hx, h]
      · exact ih x hx
  | case2 cur p h =>
      intro x hx
      rw [scheduleGo_step, if_neg h] at hx
      simp at hx

/-- Consecutive scheduled entries: the next date is the previous one advanced
by the leg-1 frequency step, and the dates strictly increase. -/
theorem scheduleGo_chain (endD : JSDate) (freq : String) :
    ∀ cur p, List.Chain'
      (fun a b => b.2 = addMonths a.2 (getFrequencyMonths freq) ∧ key a.2 < key b.2)
      (scheduleGo endD freq cur p) := by
  intro cur p
  induction cur, p using scheduleGo.induct endD freq with
  | case1 cur p h ih =>
      rw [scheduleGo_step, if_pos h, List.chain'_cons']
      refine ⟨?_, ih⟩
      intro y hy
      rw [scheduleGo_headq] at hy
      split at hy
      · cases hy
        exact ⟨rfl, key_lt_addMonths cur _ (getFrequencyMonths_pos freq)⟩
      · cases hy
  | case2 cur p h =>
      rw [scheduleGo_step, if_neg h]
      exact List.chain'_nil

/-- The period counters of the schedule are consecutive, starting at the
initial counter value. -/
theorem scheduleGo_map_fst (endD : JSDate) (freq : String) :
    ∀ cur p, (scheduleGo endD freq cur p).map Prod.fst =
      List.range' p (scheduleGo endD freq cur p).length := by
  intro cur p
  induction cur, p using scheduleGo.induct endD freq with
  | case1 cur p h ih =>
      rw [scheduleGo_step, if_pos h, List.map_cons, ih, List.length_cons, List.range'_succ]
  | case2 cur p h =>
      rw [scheduleGo_step, if_neg h, List.map_nil, List.length_nil, List.range'_zero]

/-- When the day-of-month is at most 28 no month can overflow: `addMonths`
keeps the day and advances the key by exactly 32 per month. -/
theorem addMonths_of_day_le (d : JSDate) (k : Int) (hd : d.day ≤ 28) :
    key (addMonths d k) = key d + 32 * k ∧ (addMonths d k).day = d.day := by
  unfold addMonths key
  have hdim := daysInMonth_bounds ((d.year * 12 + d.month + k) / 12)
    ((d.year * 12 + d.month + k) % 12)
  have htot := Int.ediv_add_emod (d.year * 12 + d.month + k) 12
  dsimp only
  rw [if_pos (by omega)]
  dsimp only
  omega

/-- Length of the schedule when the cursor's day never overflows: a closed
floor-division formula in the key distance to the end date. -/
theorem scheduleGo_length_of_day (endD : JSDate) (freq : String) :
    ∀ cur p, cur.day ≤ 28 →
      ((scheduleGo endD freq cur p).length : ℤ) =
        if key cur ≤ key endD then
          (key endD - key cur) / (32 * getFrequencyMonths freq) + 1
        else 0 := by
  intro cur p
  induction cur, p using scheduleGo.induct endD freq with
  | case1 cur p h ih =>
      intro hd
      have hm := getFrequencyMonths_pos freq
      have hstep := addMonths_of_day_le cur (getFrequencyMonths freq) hd
      rw [scheduleGo_step, if_pos h, List.length_cons, if_pos h]
      have ih2 := ih (by omega)
      by_cases h2 : key (addMonths cur (getFrequencyMonths freq)) ≤ key endD
      · rw [if_pos h2] at ih2
        have e : key endD - key (addMonths cur (getFrequencyMonths freq)) =
            key endD - key cur + (-1) * (32 * getFrequencyMonths freq) := by
          rw [hstep.1]; ring
        rw [e, Int.add_mul_ediv_right _ _ (by omega : 32 * getFrequencyMonths freq ≠ 0)] at ih2
        push_cast
        omega
      · rw [if_neg h2] at ih2
        have hz : (key endD - key cur) / (32 * getFrequencyMonths freq) = 0 :=
          Int.ediv_eq_zero_of_lt (by omega) (by omega)
        push_cast
        omega
  | case2 cur p h =>
      intro _
      rw [scheduleGo_step, if_neg h, if_neg h]
      simp

/-- Floor division by a product of positive integers, in two stages. -/
theorem int_ediv_ediv (x a b : ℤ) (ha : 0 < a) (hb : 0 < b) :
    x / a / b = x / (a * b) := by
  have hab : 0 < a * b := Int.mul_pos ha hb
  have hx := Int.ediv_add_emod x (a * b)
  have hr0 : 0 ≤ x % (a * b) := Int.emod_nonneg x (by omega)
  have hr1 : x % (a * b) < a * b := Int.emod_lt_of_pos x hab
  have e1 : x = x % (a * b) + (x / (a * b) * b) * a := by linear_combination (-1 : ℤ) * hx
  conv_lhs => rw [e1]
  rw [Int.add_mul_ediv_right _ _ (by omega : a ≠ 0),
    Int.add_mul_ediv_right _ _ (by omega : b ≠ 0)]
  have hq0 : x % (a * b) / a / b = 0 := by
    have h1 : 0 ≤ x % (a * b) / a := Int.ediv_nonneg hr0 (by omega)
    have h2 : x % (a * b) / a < b := by
      rw [Int.ediv_lt_iff_lt_mul ha]
      have hc : a * b = b * a := Int.mul_comm a b
      omega
    exact Int.ediv_eq_zero_of_lt h1 h2
  rw [hq0]
  omega

/-- Concrete schedule of the §8 scenario deal. -/
theorem schedule_scenario :
    schedule scenarioDeal = [(1, ⟨2025, 0, 1⟩), (2, ⟨2025, 3, 1⟩)] := by
  unfold schedule
  rw [show addMonths scenarioDeal.startDate (getFrequencyMonths scenarioDeal.leg1.frequency) =
    (⟨2025, 0, 1⟩ : JSDate) from by decide]
  rw [scheduleGo_step, if_pos (by decide)]
  rw [show addMonths (⟨2025, 0, 1⟩ : JSDate) (getFrequencyMonths scenarioDeal.leg1.frequency) =
    (⟨2025, 3, 1⟩ : JSDate) from by decide]
  rw [scheduleGo_step, if_pos (by decide)]
  rw [show addMonths (⟨2025, 3, 1⟩ : JSDate) (getFrequencyMonths scenarioDeal.leg1.frequency) =
    (⟨2025, 6, 1⟩ : JSDate) from by decide]
  rw [scheduleGo_step, if_neg (by decide)]

/-- Concrete schedule of the tiny deal: a single period. -/
theorem schedule_tiny :
    schedule tinyDeal = [(1, ⟨2025, 0, 1⟩)] := by
  unfold schedule
  rw [show addMonths tinyDeal.startDate (getFrequencyMonths tinyDeal.leg1.frequency) =
    (⟨2025, 0, 1⟩ : JSDate) from by decide]
  rw [scheduleGo_step, if_pos (by decide)]
  rw [show addMonths (⟨2025, 0, 1⟩ : JSDate) (getFrequencyMonths tinyDeal.leg1.frequency) =
    (⟨2025, 3, 1⟩ : JSDate) from by decide]
  rw [scheduleGo_step, if_neg (by decide)]

/-- Concrete schedule of the overflow deal: the April 31 roll-over lands the
cursor on May 1, so only one period fits before July 31. -/
theorem schedule_overflow :
    schedule overflowDeal = [(1, ⟨2024, 4, 1⟩)] := by
  unfold schedule
  rw [show addMonths overflowDeal.startDate (getFrequencyMonths overflowDeal.leg1.frequency) =
    (⟨2024, 4, 1⟩ : JSDate) from by decide]
  rw [scheduleGo_step, if_pos (by decide)]
  rw [show addMonths (⟨2024, 4, 1⟩ : JSDate) (getFrequencyMonths overflowDeal.leg1.frequency) =
    (⟨2024, 7, 1⟩ : JSDate) from by decide]
  rw [scheduleGo_step, if_neg (by decide)]

/-- Folding `acc + f row` over a list is the sum of the image. -/
theorem foldl_add_eq_sum (f : CashflowRow → ℝ) :
    ∀ (l : List CashflowRow) (a : ℝ),
      l.foldl (fun acc row => acc + f row) a = a + (l.map f).sum := by
  intro l
  induction l with
  | nil => intro a; simp
  | cons x xs ih =>
      intro a
      simp only [List.foldl_cons, List.map_cons, List.sum_cons]
      rw [ih]
      ring

/-- Evaluating `toFixed` when the scaled value is an exact integer. -/
theorem toFixed_eq_of_int (f : ℕ) (x : ℝ) (z : ℤ) (h : x * 10 ^ f = (z : ℝ)) :
    toFixed f x = (z : ℝ) / 10 ^ f := by
  unfold toFixed
  rw [h, round_intCast]

/-- Rounding characterised by half-integer bounds. -/
theorem round_eq_of_bounds (x : ℝ) (z : ℤ) (h1 : (z : ℝ) ≤ x + 1 / 2)
    (h2 : x + 1 / 2 < z + 1) : round x = z := by
  rw [round_eq]
  exact Int.floor_eq_iff.mpr ⟨h1, h2⟩

/-- `toFixed` evaluated from half-integer bounds on the scaled value. -/
theorem toFixed_eq_of_bounds (f : ℕ) (x : ℝ) (z : ℤ) (h1 : (z : ℝ) ≤ x * 10 ^ f + 1 / 2)
    (h2 : x * 10 ^ f + 1 / 2 < z + 1) : toFixed f x = (z : ℝ) / 10 ^ f := by
  unfold toFixed
  rw [round_eq_of_bounds _ z h1 h2]

/-- The quartic root of 1.04, i.e. `1.04 ^ 0.25`, lies strictly between
1.00985 and 1.0099 (both fourth powers straddle 1.04). -/
theorem rpow_quarter_bounds :
    (1.00985 : ℝ) < (1.04 : ℝ) ^ ((1 : ℝ) / 4) ∧
    (1.04 : ℝ) ^ ((1 : ℝ) / 4) < 1.0099 := by
  have hx4 : ((1.04 : ℝ) ^ ((1 : ℝ) / 4)) ^ (4 : ℕ) = 1.04 := by
    rw [← Real.rpow_natCast ((1.04 : ℝ) ^ ((1 : ℝ) / 4)) 4,
      ← Real.rpow_mul (by norm_num : (0 : ℝ) ≤ 1.04)]
    norm_num
  have hx0 : (0 : ℝ) < (1.04 : ℝ) ^ ((1 : ℝ) / 4) :=
    Real.rpow_pos_of_pos (by norm_num) _
  constructor
  · by_contra hle
    push_neg at hle
    have h := pow_le_pow_left hx0.le hle 4
    rw [hx4] at h
    norm_num at h
  · by_contra hle
    push_neg at hle
    have h := pow_le_pow_left (by norm_num : (0 : ℝ) ≤ 1.0099) hle 4
    rw [hx4] at h
    norm_num at h

/-- The first-period quarterly discount factor `1 / 1.04 ^ 0.25` rounds to
0.9902 at 4 decimals (not 0.9906: the exact value is 0.99024…). -/
theorem toFixed_df_quarter :
    toFixed 4 ((1 : ℝ) / (1.04 : ℝ) ^ ((1 : ℝ) * ((3 : ℝ) / 12))) = 0.9902 := by
  have he : (1 : ℝ) * ((3 : ℝ) / 12) = (1 : ℝ) / 4 := by norm_num
  rw [he]
  obtain ⟨hl, hu⟩ := rpow_quarter_bounds
  have hx0 : (0 : ℝ) < (1.04 : ℝ) ^ ((1 : ℝ) / 4) :=
    Real.rpow_pos_of_pos (by norm_num) _
  have hdl : (0.99015 : ℝ) ≤ 1 / (1.04 : ℝ) ^ ((1 : ℝ) / 4) := by
    rw [le_div_iff hx0]
    nlinarith
  have hdu : 1 / (1.04 : ℝ) ^ ((1 : ℝ) / 4) < (0.99025 : ℝ) := by
    rw [div_lt_iff hx0]
    nlinarith
  rw [toFixed_eq_of_bounds 4 _ 9902 (by push_cast; nlinarith) (by push_cast; nlinarith)]
  norm_num

/-- For Fixed legs the per-row flows do not depend on the random draws and
equal the rounded simple-interest amounts at the stated rates. -/
theorem mkRow_flows_fixed (deal : SwapDeal) (rng : ℕ → ℝ × ℝ) (x : ℕ × JSDate)
    (h1 : deal.leg1.type = LegType.Fixed) (h2 : deal.leg2.type = LegType.Fixed) :
    (mkRow deal rng x).leg1Flow = toFixed 2 (deal.leg1.notional * (deal.leg1.rate / 100) *
      ((getFrequencyMonths deal.leg1.frequency : ℝ) / 12)) ∧
    (mkRow deal rng x).leg2Flow = toFixed 2 (-(deal.leg2.notional * (deal.leg2.rate / 100) *
      ((getFrequencyMonths deal.leg1.frequency : ℝ) / 12))) := by
  unfold mkRow effectiveRate
  rw [h1, h2]
  dsimp only
  rw [if_neg (by decide : ¬ LegType.Fixed = LegType.Floating)]
  exact ⟨rfl, rfl⟩

/-- C4: for every deal in which `endDate` is earlier than `startDate` plus
`stepMonths` — including non-chronological inputs where `endDate` precedes
`startDate` — the cashflow generator returns zero rows.  (It also raises no
error: `generateSmartCashflows` is a total function of its inputs.) -/
theorem c4_short_range_empty (deal : SwapDeal) (rng : ℕ → ℝ × ℝ)  :
    (¬ key (addMonths deal.startDate (getFrequencyMonths deal.leg1.frequency)) ≤
        key deal.endDate →
      generateSmartCashflows deal rng = []) ∧
    (key deal.endDate < key deal.startDate → generateSmartCashflows deal rng = []) := by
  constructor
  · intro h
    unfold generateSmartCashflows
    rw [generateGo_step, if_neg h]
  · intro h
    have h2 := key_lt_addMonths deal.startDate (getFrequencyMonths deal.leg1.frequency)
      (getFrequencyMonths_pos deal.leg1.frequency)
    unfold generateSmartCashflows
    rw [generateGo_step, if_neg (by omega)]

/-- Witness for C4: a concrete deal whose end date precedes its start date
yields zero rows. -/
theorem c4_short_range_empty_witness :
    generateSmartCashflows backwardsDeal rngZero = [] :=
  (c4_short_range_empty backwardsDeal rngZero).2 (by decide)

/-- C5: for every deal whose two legs are both Fixed, the generator is
deterministic — the output does not depend on the random oracle, so two
invocations on identical inputs produce identical row sequences. -/
theorem c5_fixed_fixed_deterministic (deal : SwapDeal) (rng1 rng2 : ℕ → ℝ × ℝ)
    (h1 : deal.leg1.type = LegType.Fixed) (h2 : deal.leg2.type = LegType.Fixed) :
    generateSmartCashflows deal rng1 = generateSmartCashflows deal rng2 := by
  rw [generate_eq_schedule_map, generate_eq_schedule_map]
  apply List.map_congr_left
  intro x _
  unfold mkRow effectiveRate
  rw [h1, h2]
  simp only [if_neg (by decide : ¬ LegType.Fixed = LegType.Floating)]

/-- Witness for C5: the Fixed/Fixed scenario deal under two different random
oracles. -/
theorem c5_fixed_fixed_deterministic_witness :
    generateSmartCashflows scenarioDeal rngZero = generateSmartCashflows scenarioDeal rngHalf :=
  c5_fixed_fixed_deterministic scenarioDeal rngZero rngHalf (by decide) (by decide)

/-- C6: for every pricing request the caller-computed summary satisfies:
`npvTotal` is the sum of the rows' present values, `leg1Npv`/`leg2Npv` are the
raw (undiscounted) sums of the rows' flows, `spread` is the absolute stated
rate difference times 100, and `principal` is leg 2's notional verbatim. -/
theorem c6_summary_fields (deal : SwapDeal) (rng : ℕ → ℝ × ℝ) :
    (handleCalculate deal rng).npvTotal =
      ((handleCalculate deal rng).cashflows.map (fun r => r.presentValue)).sum ∧
    (handleCalculate deal rng).leg1Npv =
      ((handleCalculate deal rng).cashflows.map (fun r => r.leg1Flow)).sum ∧
    (handleCalculate deal rng).leg2Npv =
      ((handleCalculate deal rng).cashflows.map (fun r => r.leg2Flow)).sum ∧
    (handleCalculate deal rng).spread = |deal.leg1.rate - deal.leg2.rate| * 100 ∧
    (handleCalculate deal rng).principal = deal.leg2.notional := by
  unfold handleCalculate
  dsimp only
  refine ⟨?_, ?_, ?_, rfl, rfl⟩ <;>
    · rw [foldl_add_eq_sum]
      ring

/-- C7: for every leg and every value drawn from the random source, a
Floating leg's effective rate is its stated rate plus a perturbation lying
within [-0.25, +0.25] percentage points, while a Fixed leg's effective rate
is its stated rate unchanged. -/
theorem c7_effective_rate_range (leg : SwapLeg) (r : ℝ) (h0 : 0 ≤ r) (h1 : r < 1) :
    (leg.type = LegType.Floating →
      effectiveRate leg r = leg.rate + (r * 0.5 - 0.25) ∧
      leg.rate - 0.25 ≤ effectiveRate leg r ∧
      effectiveRate leg r ≤ leg.rate + 0.25) ∧
    (leg.type = LegType.Fixed → effectiveRate leg r = leg.rate) := by
  constructor
  · intro hf
    unfold effectiveRate
    rw [if_pos hf]
    refine ⟨rfl, by nlinarith, by nlinarith⟩
  · intro hf
    unfold effectiveRate
    rw [hf]
    rw [if_neg (by decide : ¬ LegType.Fixed = LegType.Floating)]

/-- Witness for C7: the form's default floating leg with the draw 1/2. -/
theorem c7_effective_rate_range_witness :
    ((0 : ℝ) ≤ 1 / 2 ∧ (1 / 2 : ℝ) < 1) ∧
    floatingLeg.rate - 0.25 ≤ effectiveRate floatingLeg (1 / 2) ∧
    effectiveRate floatingLeg (1 / 2) ≤ floatingLeg.rate + 0.25 := by
  refine ⟨⟨by norm_num, by norm_num⟩, ?_⟩
  have h := (c7_effective_rate_range floatingLeg (1 / 2) (by norm_num) (by norm_num)).1 rfl
  exact ⟨h.2.1, h.2.2⟩

/-- C9: the generator is pure: its output is fully determined by the explicit
inputs it reads (`startDate`, `endDate`, the two legs) and the values drawn
from the random source — in particular it ignores `id`, `status` and
`valueDate`, and carries no state between calls.  The input record itself is
immutable here by construction, matching the source, which contains no
assignment to `deal` or its fields. -/
theorem c9_generator_pure (d1 d2 : SwapDeal) (rng1 rng2 : ℕ → ℝ × ℝ)
    (hs : d1.startDate = d2.startDate) (he : d1.endDate = d2.endDate)
    (hl1 : d1.leg1 = d2.leg1) (hl2 : d1.leg2 = d2.leg2)
    (hr : ∀ p, rng1 p = rng2 p) :
    generateSmartCashflows d1 rng1 = generateSmartCashflows d2 rng2 := by
  have hrf : rng1 = rng2 := funext hr
  subst hrf
  rw [generate_eq_schedule_map, generate_eq_schedule_map]
  have hsched : schedule d1 = schedule d2 := by
    unfold schedule
    rw [hs, he, hl1]
  have hrow : mkRow d1 rng1 = mkRow d2 rng1 := by
    funext x
    unfold mkRow
    rw [hl1, hl2]
  rw [hsched, hrow]

/-- Witness for C9: relabelling `id`, `status` and `valueDate` does not change
the generated rows. -/
theorem c9_generator_pure_witness :
    generateSmartCashflows scenarioDeal rngZero =
      generateSmartCashflows scenarioDealRelabelled rngZero :=
  c9_generator_pure scenarioDeal scenarioDealRelabelled rngZero rngZero
    rfl rfl rfl rfl (fun _ => rfl)

/-- C10: `analyzeSwapDeal` never rejects — for every deal, pricing result,
API-key environment and remote-call outcome it resolves to a string: the
fixed missing-key message when no API key is configured, the model's text (or
the fixed fallback when the response text is empty) on success, and the fixed
failure message when the remote call throws. -/
theorem c10_analyze_total (apiKey : Option String) (deal : SwapDeal)
    (result : PricingResult) (callOutcome : Except Unit String) :
    (apiKeyMissing apiKey →
      analyzeSwapDeal apiKey deal result callOutcome =
        "API Key missing. Unable to perform AI analysis.") ∧
    (¬ apiKeyMissing apiKey → ∀ t, callOutcome = Except.ok t →
      analyzeSwapDeal apiKey deal result callOutcome =
        (if t = "" then "No analysis generated." else t)) ∧
    (¬ apiKeyMissing apiKey → ∀ e, callOutcome = Except.error e →
      analyzeSwapDeal apiKey deal result callOutcome =
        "Failed to generate analysis. Please check your connection or API limits.") := by
  unfold analyzeSwapDeal
  refine ⟨fun h => by rw [if_pos h], fun h t ht => ?_, fun h e he => ?_⟩
  · rw [if_neg h, ht]
  · rw [if_neg h, he]

/-- Witness for C10: all three outcomes at concrete inputs. -/
theorem c10_analyze_total_witness :
    analyzeSwapDeal (some ("")) scenarioDeal (handleCalculate scenarioDeal rngZero)
      (Except.ok ("hello")) = "API Key missing. Unable to perform AI analysis." ∧
    analyzeSwapDeal (some ("k")) scenarioDeal (handleCalculate scenarioDeal rngZero)
      (Except.ok ("")) = "No analysis generated." ∧
    analyzeSwapDeal (some ("k")) scenarioDeal (handleCalculate scenarioDeal rngZero)
      (Except.error ()) =
      "Failed to generate analysis. Please check your connection or API limits." := by
  refine ⟨?_, ?_, ?_⟩
  · exact (c10_analyze_total (some ("")) scenarioDeal (handleCalculate scenarioDeal rngZero)
      (Except.ok ("hello"))).1 (by decide)
  · have h := (c10_analyze_total (some ("k")) scenarioDeal (handleCalculate scenarioDeal rngZero)
      (Except.ok (""))).2.1 (by decide) ("") rfl
    simpa using h
  · exact (c10_analyze_total (some ("k")) scenarioDeal (handleCalculate scenarioDeal rngZero)
      (Except.error ())).2.2 (by decide) () rfl

/-- C2: for every deal, the emitted rows' dates are exactly the schedule's
dates (ISO-formatted); along the schedule each date is strictly greater than
the previous one and arises from it by exactly one `stepMonths` calendar-month
advance (`addMonths`, the source's month stepper); every scheduled date is on
or before `endDate`; and the schedule is non-empty whenever `startDate` plus
one period is on or before `endDate`. -/
theorem c2_schedule_invariants (deal : SwapDeal) (rng : ℕ → ℝ × ℝ) :
    (generateSmartCashflows deal rng).map (fun r => r.date) =
      (schedule deal).map (fun x => formatDate x.2) ∧
    List.Chain' (fun a b =>
        b.2 = addMonths a.2 (getFrequencyMonths deal.leg1.frequency) ∧ key a.2 < key b.2)
      (schedule deal) ∧
    (∀ x ∈ schedule deal, key x.2 ≤ key deal.endDate) ∧
    (key (addMonths deal.startDate (getFrequencyMonths deal.leg1.frequency)) ≤
        key deal.endDate →
      schedule deal ≠ []) := by
  refine ⟨?_, ?_, ?_, ?_⟩
  · rw [generate_eq_schedule_map, List.map_map]
    rfl
  · unfold schedule
    exact scheduleGo_chain deal.endDate deal.leg1.frequency _ 1
  · unfold schedule
    exact scheduleGo_mem_le deal.endDate deal.leg1.frequency _ 1
  · intro h
    unfold schedule
    rw [scheduleGo_step, if_pos h]
    simp

/-- Witness for C2: the scenario deal is non-empty, and its first scheduled
date 2025-01-01 is on or before the end date. -/
theorem c2_schedule_invariants_witness :
    key (addMonths scenarioDeal.startDate (getFrequencyMonths scenarioDeal.leg1.frequency)) ≤
      key scenarioDeal.endDate ∧
    schedule scenarioDeal ≠ [] ∧
    key ((⟨2025, 0, 1⟩ : JSDate)) ≤ key scenarioDeal.endDate := by
  refine ⟨by decide, (c2_schedule_invariants scenarioDeal rngZero).2.2.2 (by decide), ?_⟩
  exact (c2_schedule_invariants scenarioDeal rngZero).2.2.1 (1, ⟨2025, 0, 1⟩)
    (by rw [schedule_scenario]; exact List.mem_cons_self _ _)

/-- C1 counterexample: for the tiny Fixed/Fixed quarterly deal (notional 1,
rate 1%), the emitted `leg1Flow` is 0 while the raw interest value
`notional × (effectiveRate/100) × timeFraction` is 1/400 ≠ 0 — the source
rounds the leg flows to 2 decimals before emitting them. -/
theorem c1_row_fields_cex :
    (generateSmartCashflows tinyDeal rngZero).map (fun r => r.leg1Flow) = [0] ∧
    tinyDeal.leg1.notional * (effectiveRate tinyDeal.leg1 (rngZero 1).1 / 100) *
      ((getFrequencyMonths tinyDeal.leg1.frequency : ℝ) / 12) = 1 / 400 ∧
    (1 / 400 : ℝ) ≠ 0 := by
  have hfreq : getFrequencyMonths tinyDeal.leg1.frequency = 3 := by decide
  have heff : effectiveRate tinyDeal.leg1 (rngZero 1).1 = tinyDeal.leg1.rate := by
    unfold effectiveRate
    rw [if_neg (by decide : ¬ tinyDeal.leg1.type = LegType.Floating)]
  have hraw : tinyDeal.leg1.notional * (effectiveRate tinyDeal.leg1 (rngZero 1).1 / 100) *
      ((getFrequencyMonths tinyDeal.leg1.frequency : ℝ) / 12) = 1 / 400 := by
    rw [heff, hfreq, show tinyDeal.leg1.notional = (1 : ℝ) from rfl,
      show tinyDeal.leg1.rate = (1 : ℝ) from rfl]
    push_cast
    norm_num
  refine ⟨?_, hraw, by norm_num⟩
  rw [generate_eq_schedule_map, schedule_tiny, List.map_cons, List.map_nil, List.map_cons,
    List.map_nil]
  have hflow := (mkRow_flows_fixed tinyDeal rngZero (1, ⟨2025, 0, 1⟩) (by decide) (by decide)).1
  rw [hflow, hfreq, show tinyDeal.leg1.notional = (1 : ℝ) from rfl,
    show tinyDeal.leg1.rate = (1 : ℝ) from rfl]
  have harg : (1 : ℝ) * ((1 : ℝ) / 100) * (((3 : ℤ) : ℝ) / 12) = 1 / 400 := by
    push_cast
    norm_num
  rw [harg, toFixed_eq_of_bounds 2 (1 / 400) 0 (by norm_num) (by norm_num)]
  norm_num

/-- C1 (amended): for every deal, the row emitted for period `p` (periods
indexed from 1, `timeFraction = stepMonths / 12`) has `leg1Flow` equal to leg
1's raw interest value `notional₁ × (effectiveRate₁/100) × timeFraction`
ROUNDED TO 2 DECIMALS; `leg2Flow` equal to the negative of leg 2's raw
interest value, ROUNDED TO 2 DECIMALS; `discountFactor` equal to
`1/(1.04)^(p × timeFraction)` rounded to 4 decimals; and `presentValue` equal
to `|leg1 interest| − |leg2 interest| × discountFactor` (with the unrounded
discount factor), rounded to 2 decimals — where the effective rate is the
stated rate for a Fixed leg and the randomly perturbed rate for a Floating
leg. -/
theorem c1_row_fields (deal : SwapDeal) (rng : ℕ → ℝ × ℝ) :
    generateSmartCashflows deal rng = (schedule deal).map (fun x =>
      ({ date := formatDate x.2,
         leg1Flow := toFixed 2 (deal.leg1.notional *
           (effectiveRate deal.leg1 (rng x.1).1 / 100) *
           ((getFrequencyMonths deal.leg1.frequency : ℝ) / 12)),
         leg2Flow := toFixed 2 (-(deal.leg2.notional *
           (effectiveRate deal.leg2 (rng x.1).2 / 100) *
           ((getFrequencyMonths deal.leg1.frequency : ℝ) / 12))),
         discountFactor := toFixed 4 (1 / (1.04 : ℝ) ^
           ((x.1 : ℝ) * ((getFrequencyMonths deal.leg1.frequency : ℝ) / 12))),
         presentValue := toFixed 2 (|deal.leg1.notional *
           (effectiveRate deal.leg1 (rng x.1).1 / 100) *
           ((getFrequencyMonths deal.leg1.frequency : ℝ) / 12)| -
           |deal.leg2.notional * (effectiveRate deal.leg2 (rng x.1).2 / 100) *
           ((getFrequencyMonths deal.leg1.frequency : ℝ) / 12)| *
           (1 / (1.04 : ℝ) ^
             ((x.1 : ℝ) * ((getFrequencyMonths deal.leg1.frequency : ℝ) / 12)))) } :
        CashflowRow)) ∧
    (schedule deal).map Prod.fst = List.range' 1 (schedule deal).length := by
  constructor
  · rw [generate_eq_schedule_map]
    rfl
  · unfold schedule
    exact scheduleGo_map_fst deal.endDate deal.leg1.frequency _ 1

/-- C3 counterexample: for the deal 2024-01-31 → 2024-07-31 (Quarterly), the
dates are at least one period apart and
`monthsBetween / stepMonths = 6 / 3 = 2`, but the generator returns a single
row: the first advance lands on Apr 31, which `setMonth` rolls over to May 1,
so the second advance (Aug 1) overshoots July 31. -/
theorem c3_row_count_cex :
    ((generateSmartCashflows overflowDeal rngZero).length : ℤ) = 1 ∧
    key (addMonths overflowDeal.startDate (getFrequencyMonths overflowDeal.leg1.frequency)) ≤
      key overflowDeal.endDate ∧
    monthsBetween overflowDeal.startDate overflowDeal.endDate /
      getFrequencyMonths overflowDeal.leg1.frequency = 2 ∧
    (1 : ℤ) ≠ 2 := by
  refine ⟨?_, by decide, by decide, by decide⟩
  rw [generate_eq_schedule_map, List.length_map, schedule_overflow]
  norm_num

/-- C3 (amended): for every deal whose start day-of-month is at most 28 (so
that `setMonth` never overflows) and whose dates are at least one period
apart, the row count is `⌊monthsBetween(startDate, endDate) / stepMonths⌋`;
and the spec's §8 scenario (2024-10-01 → 2025-04-01, Quarterly, both legs
Fixed at 4% on 1,000,000) yields exactly the two rows dated 2025-01-01 and
2025-04-01 with per-period interest 10,000 on each leg. -/
theorem c3_row_count :
    (∀ (deal : SwapDeal) (rng : ℕ → ℝ × ℝ),
      deal.startDate.day ≤ 28 →
      key (addMonths deal.startDate (getFrequencyMonths deal.leg1.frequency)) ≤
        key deal.endDate →
      ((generateSmartCashflows deal rng).length : ℤ) =
        monthsBetween deal.startDate deal.endDate / getFrequencyMonths deal.leg1.frequency) ∧
    (∀ rng : ℕ → ℝ × ℝ,
      (generateSmartCashflows scenarioDeal rng).map (fun r => r.date) =
        ["2025-01-01", "2025-04-01"] ∧
      (generateSmartCashflows scenarioDeal rng).map (fun r => r.leg1Flow) =
        [(10000 : ℝ), 10000] ∧
      (generateSmartCashflows scenarioDeal rng).map (fun r => r.leg2Flow) =
        [(-10000 : ℝ), -10000]) := by
  constructor
  · intro deal rng hday h2
    have hm := getFrequencyMonths_pos deal.leg1.frequency
    have hfirst := addMonths_of_day_le deal.startDate (getFrequencyMonths deal.leg1.frequency)
      hday
    rw [generate_eq_schedule_map, List.length_map]
    unfold schedule
    have hlen := scheduleGo_length_of_day deal.endDate deal.leg1.frequency
      (addMonths deal.startDate (getFrequencyMonths deal.leg1.frequency)) 1 (by omega)
    rw [if_pos h2] at hlen
    rw [hlen]
    unfold monthsBetween
    rw [int_ediv_ediv (key deal.endDate - key deal.startDate) 32
      (getFrequencyMonths deal.leg1.frequency) (by norm_num) (by omega)]
    rw [hfirst.1]
    have e : key deal.endDate -
        (key deal.startDate + 32 * getFrequencyMonths deal.leg1.frequency) =
        key deal.endDate - key deal.startDate +
          (-1) * (32 * getFrequencyMonths deal.leg1.frequency) := by
      ring
    rw [e, Int.add_mul_ediv_right _ _
      (by omega : 32 * getFrequencyMonths deal.leg1.frequency ≠ 0)]
    ring
  · intro rng
    have hfl1 := mkRow_flows_fixed scenarioDeal rng (1, ⟨2025, 0, 1⟩) (by decide) (by decide)
    have hfl2 := mkRow_flows_fixed scenarioDeal rng (2, ⟨2025, 3, 1⟩) (by decide) (by decide)
    have hfreq : getFrequencyMonths scenarioDeal.leg1.frequency = 3 := by decide
    have hval1 : toFixed 2 (scenarioDeal.leg1.notional * (scenarioDeal.leg1.rate / 100) *
        ((getFrequencyMonths scenarioDeal.leg1.frequency : ℝ) / 12)) = 10000 := by
      rw [hfreq, show scenarioDeal.leg1.notional = (1000000 : ℝ) from rfl,
        show scenarioDeal.leg1.rate = (4 : ℝ) from rfl]
      have harg : (1000000 : ℝ) * ((4 : ℝ) / 100) * (((3 : ℤ) : ℝ) / 12) = 10000 := by
        push_cast
        norm_num
      rw [harg, toFixed_eq_of_int 2 10000 1000000 (by push_cast; norm_num)]
      norm_num
    have hval2 : toFixed 2 (-(scenarioDeal.leg2.notional * (scenarioDeal.leg2.rate / 100) *
        ((getFrequencyMonths scenarioDeal.leg1.frequency : ℝ) / 12))) = -10000 := by
      rw [hfreq, show scenarioDeal.leg2.notional = (1000000 : ℝ) from rfl,
        show scenarioDeal.leg2.rate = (4 : ℝ) from rfl]
      have harg : -((1000000 : ℝ) * ((4 : ℝ) / 100) * (((3 : ℤ) : ℝ) / 12)) = -10000 := by
        push_cast
        norm_num
      rw [harg, toFixed_eq_of_int 2 (-10000) (-1000000) (by push_cast; norm_num)]
      norm_num
    refine ⟨?_, ?_, ?_⟩
    · rw [generate_eq_schedule_map, schedule_scenario]
      simp only [List.map_cons, List.map_nil]
      have hd1 : (mkRow scenarioDeal rng (1, ⟨2025, 0, 1⟩)).date = "2025-01-01" := rfl
      have hd2 : (mkRow scenarioDeal rng (2, ⟨2025, 3, 1⟩)).date = "2025-04-01" := rfl
      rw [hd1, hd2]
    · rw [generate_eq_schedule_map, schedule_scenario]
      simp only [List.map_cons, List.map_nil]
      rw [hfl1.1, hfl2.1, hval1]
    · rw [generate_eq_schedule_map, schedule_scenario]
      simp only [List.map_cons, List.map_nil]
      rw [hfl1.2, hfl2.2, hval2]

/-- Witness for C3: the scenario deal satisfies the amended count formula,
whose value is 2. -/
theorem c3_row_count_witness :
    scenarioDeal.startDate.day ≤ 28 ∧
    ((generateSmartCashflows scenarioDeal rngZero).length : ℤ) =
      monthsBetween scenarioDeal.startDate scenarioDeal.endDate /
        getFrequencyMonths scenarioDeal.leg1.frequency ∧
    monthsBetween scenarioDeal.startDate scenarioDeal.endDate /
      getFrequencyMonths scenarioDeal.leg1.frequency = 2 :=
  ⟨by decide, c3_row_count.1 scenarioDeal rngZero (by decide) (by decide), by decide⟩

/-- C8 counterexample: the first-row discount factor of a Quarterly deal is
`toFixed 4 (1/1.04^0.25) = 0.9902`, not the 0.9906 stated by the claim
(`1/1.04^0.25 = 0.99024…`). -/
theorem c8_df_cex :
    (generateSmartCashflows scenarioDeal rngZero).head?.map (fun r => r.discountFactor) =
      some ((0.9902 : ℝ)) ∧
    (0.9902 : ℝ) ≠ (0.9906 : ℝ) := by
  constructor
  · rw [generate_eq_schedule_map, schedule_scenario]
    simp only [List.map_cons, List.head?_cons, Option.map_some']
    congr 1
    show toFixed 4 (1 / (1.04 : ℝ) ^
      (((1 : ℕ) : ℝ) * ((getFrequencyMonths scenarioDeal.leg1.frequency : ℝ) / 12))) = 0.9902
    rw [show getFrequencyMonths scenarioDeal.leg1.frequency = (3 : ℤ) from by decide]
    rw [show ((1 : ℕ) : ℝ) * (((3 : ℤ) : ℝ) / 12) = (1 : ℝ) * ((3 : ℝ) / 12) from by
      push_cast; ring]
    exact toFixed_df_quarter
  · norm_num

/-- C8 (amended): `stepMonths` is determined solely by leg 1's frequency
(Monthly 1, Quarterly 3, Semi-Annual 6, Annual 12, anything else 3); the
first emitted row, when one exists, is dated `startDate` plus `stepMonths`;
and the period-1 discount factor with `stepMonths = 3` equals
`toFixed 4 (1/1.04^(1×(3/12)))`, which is 0.9902 (not 0.9906). -/
theorem c8_frequency_and_df :
    (getFrequencyMonths ("Monthly") = 1 ∧ getFrequencyMonths ("Quarterly") = 3 ∧
      getFrequencyMonths ("Semi-Annual") = 6 ∧ getFrequencyMonths ("Annual") = 12) ∧
    (∀ s : String, s ≠ "Monthly" → s ≠ "Quarterly" → s ≠ "Semi-Annual" → s ≠ "Annual" →
      getFrequencyMonths s = 3) ∧
    (∀ (deal : SwapDeal) (rng : ℕ → ℝ × ℝ),
      (generateSmartCashflows deal rng).head?.map (fun r => r.date) =
        (if key (addMonths deal.startDate (getFrequencyMonths deal.leg1.frequency)) ≤
            key deal.endDate
         then some (formatDate (addMonths deal.startDate
           (getFrequencyMonths deal.leg1.frequency)))
         else none)) ∧
    (∀ (deal : SwapDeal) (rng : ℕ → ℝ × ℝ), deal.leg1.frequency = "Quarterly" →
      (generateSmartCashflows deal rng).head?.map (fun r => r.discountFactor) =
        (if key (addMonths deal.startDate 3) ≤ key deal.endDate
         then some ((0.9902 : ℝ)) else none)) ∧
    toFixed 4 ((1 : ℝ) / (1.04 : ℝ) ^ ((1 : ℝ) * ((3 : ℝ) / 12))) = 0.9902 := by
  refine ⟨⟨by decide, by decide, by decide, by decide⟩, ?_, ?_, ?_, toFixed_df_quarter⟩
  · intro s h1 h2 h3 h4
    unfold getFrequencyMonths
    rw [if_neg h1, if_neg h2, if_neg h3, if_neg h4]
  · intro deal rng
    rw [generate_eq_schedule_map, List.head?_map]
    unfold schedule
    rw [scheduleGo_headq]
    by_cases h : key (addMonths deal.startDate (getFrequencyMonths deal.leg1.frequency)) ≤
        key deal.endDate
    · rw [if_pos h, if_pos h]
      rfl
    · rw [if_neg h, if_neg h]
      rfl
  · intro deal rng hfreq
    rw [generate_eq_schedule_map, List.head?_map]
    unfold schedule
    rw [scheduleGo_headq, hfreq,
      show getFrequencyMonths ("Quarterly") = (3 : ℤ) from by decide]
    by_cases h : key (addMonths deal.startDate 3) ≤ key deal.endDate
    · rw [if_pos h, if_pos h]
      simp only [Option.map_some']
      congr 1
      show toFixed 4 (1 / (1.04 : ℝ) ^
        (((1 : ℕ) : ℝ) * ((getFrequencyMonths deal.leg1.frequency : ℝ) / 12))) = 0.9902
      rw [hfreq, show getFrequencyMonths ("Quarterly") = (3 : ℤ) from by decide]
      rw [show ((1 : ℕ) : ℝ) * (((3 : ℤ) : ℝ) / 12) = (1 : ℝ) * ((3 : ℝ) / 12) from by
        push_cast; ring]
      exact toFixed_df_quarter
    · rw [if_neg h, if_neg h]
      rfl

/-- Witness for C8: an unrecognised frequency falls back to 3 months, and the
scenario deal's first row carries discount factor 0.9902. -/
theorem c8_frequency_and_df_witness :
    getFrequencyMonths ("Weekly") = 3 ∧
    (generateSmartCashflows scenarioDeal rngZero).head?.map (fun r => r.discountFactor) =
      (if key (addMonths scenarioDeal.startDate 3) ≤ key scenarioDeal.endDate
       then some ((0.9902 : ℝ)) else none) :=
  ⟨c8_frequency_and_df.2.1 ("Weekly") (by decide) (by decide) (by decide) (by decide),
    c8_frequency_and_df.2.2.2.1 scenarioDeal rngZero rfl⟩
